import Mathlib

/-!
Shallow embedding of the safe Vorbis-decoding wrapper (`src/lib.rs`) and
verification of its specification.

Modelling conventions:
* Byte strings are `List Nat` with every element below 256 where it matters.
* Rust `Result<T, VorbisError>` is `Except VorbisError T`.
* A Rust panic is modelled explicitly: functions that can panic return an
  `Option` (with `none` for the panic) or a dedicated result constructor.
* Calls into the external libvorbisfile engine are modelled by passing the
  engine's reported result (return code, filled buffer, info record) as an
  explicit argument: the wrapper layer treats those values as opaque inputs.
* `std::io::Error` is opaque to the wrapper; it is modelled as a wrapped
  numeric token `IOErr`.
-/

/-- Opaque stand-in for `std::io::Error`: the wrapper never inspects it,
only stores and re-wraps it. -/
structure IOErr where
  code : Nat
deriving DecidableEq, Repr

/-- The error taxonomy `VorbisError` from `src/lib.rs`.
`CommentCharacter` wraps `std::string::FromUtf8Error`, which retains the
offending byte vector; we model it by the bytes themselves. -/
inductive VorbisError where
  | ReadError (e : IOErr)
  | NotVorbis
  | VersionMismatch
  | BadHeader
  | InitialFileHeadersCorrupt
  | Hole
  | CommentFormat
  | CommentCharacter (bytes : List Nat)
deriving DecidableEq, Repr

/-! ### UTF-8 validation (std `String::from_utf8`)

`String::from_utf8` validates the byte vector and, on success, reuses the very
same bytes as the `String`'s representation.  The validation below is the
standard UTF-8 table used by Rust's std: ASCII, 2-byte leads `C2..DF`, 3-byte
leads `E0..EF` (with the `E0`/`ED` special second-byte ranges excluding
overlong forms and surrogates), 4-byte leads `F0..F4` (with the `F0`/`F4`
special second-byte ranges). -/

/-- A valid multi-byte lead: `C2..DF`, `E0..EF` or `F0..F4` (the leads of
Rust std's `utf8_char_width` table; `80..C1` and `F5..FF` are invalid). -/
def isLead (b : Nat) : Bool :=
  (decide (0xC2 ≤ b) && decide (b ≤ 0xDF)) ||
  (decide (0xE0 ≤ b) && decide (b ≤ 0xEF)) ||
  (decide (0xF0 ≤ b) && decide (b ≤ 0xF4))

/-- The allowed ranges of the continuation bytes after lead `b`, per Rust
std's validation: `E0` needs second byte `A0..BF` and `ED` needs `80..9F`
(no overlong forms, no surrogates); `F0` needs `90..BF` and `F4` needs
`80..8F` (no overlong forms, nothing above `U+10FFFF`); all remaining
continuation bytes are `80..BF`. -/
def leadRanges (b : Nat) : List (Nat × Nat) :=
  if decide (0xC2 ≤ b) && decide (b ≤ 0xDF) then [(0x80, 0xBF)]
  else if b == 0xE0 then [(0xA0, 0xBF), (0x80, 0xBF)]
  else if b == 0xED then [(0x80, 0x9F), (0x80, 0xBF)]
  else if decide (0xE1 ≤ b) && decide (b ≤ 0xEF) then
    [(0x80, 0xBF), (0x80, 0xBF)]
  else if b == 0xF0 then [(0x90, 0xBF), (0x80, 0xBF), (0x80, 0xBF)]
  else if b == 0xF4 then [(0x80, 0x8F), (0x80, 0xBF), (0x80, 0xBF)]
  else if decide (0xF1 ≤ b) && decide (b ≤ 0xF3) then
    [(0x80, 0xBF), (0x80, 0xBF), (0x80, 0xBF)]
  else []

/-- The UTF-8 acceptor: the first argument is the list of byte ranges still
expected to finish the current multi-byte character (empty at a character
boundary). -/
def utf8Run : List (Nat × Nat) → List Nat → Bool
  | [], [] => true
  | [], b :: rest =>
    if b ≤ 0x7F then utf8Run [] rest
    else if isLead b then utf8Run (leadRanges b) rest
    else false
  | _ :: _, [] => false
  | (lo, hi) :: rs, b :: rest =>
    if decide (lo ≤ b) && decide (b ≤ hi) then utf8Run rs rest else false

/-- Whether a byte sequence is well-formed UTF-8 (Rust std's validation). -/
def validUtf8 (l : List Nat) : Bool := utf8Run [] l

/-- Std `String::from_utf8`: validate, and on success the string is the same
byte sequence; on failure report the `FromUtf8Error` (modelled by the bytes
it retains). -/
def stringFromUtf8 (l : List Nat) : Except (List Nat) (List Nat) :=
  if validUtf8 l then .ok l else .error l

/-! ### The `Comment` view -/

/-- The `Comment<'a>` view: a borrowed byte range plus the offset of the first `=`
byte, if any (set by `Decoder::comment_at` / `fold_comments`). -/
structure Comment where
  bytes : List Nat
  sep_pos : Option Nat
deriving DecidableEq, Repr

/-- Construction of a `Comment` as done by `Decoder::comment_at` and
`Decoder::fold_comments`: `sep_pos` is the position of the first `=`
(byte `0x3D` = 61) in the raw bytes. -/
def mkComment (bytes : List Nat) : Comment :=
  { bytes := bytes, sep_pos := bytes.findIdx? (fun b => b == 61) }

/-- Std `Vec::with_capacity(n)`: a vector of length 0 (capacity is not
semantically observable here). -/
def vecWithCapacity (_n : Nat) : List Nat := []

/-- Std `<[T]>::clone_from_slice`: panics unless the two slices have equal
length; otherwise the destination becomes a copy of the source.
`none` models the panic. -/
def cloneFromSlice (dst src : List Nat) : Option (List Nat) :=
  if dst.length = src.length then some src else none

/-- Embeds `Comment::bytes`: builds `Vec::with_capacity(len)` (length 0) and calls
`clone_from_slice` on it.  `none` models the panic raised by
`clone_from_slice` on a length mismatch. -/
def Comment.bytesCopy (c : Comment) : Option (List Nat) :=
  cloneFromSlice (vecWithCapacity c.bytes.length) c.bytes

/-- Embeds `Comment::key_bytes`: the bytes before the separator, or
`CommentFormat` if there is no separator. -/
def Comment.keyBytes (c : Comment) : Except VorbisError (List Nat) :=
  match c.sep_pos with
  | none => .error .CommentFormat
  | some p => .ok (c.bytes.take p)

/-- Embeds `Comment::value_bytes`: the bytes after the separator, or
`CommentFormat` if there is no separator. -/
def Comment.valueBytes (c : Comment) : Except VorbisError (List Nat) :=
  match c.sep_pos with
  | none => .error .CommentFormat
  | some p => .ok (c.bytes.drop (p + 1))

/-- Embeds `Comment::has_key`: byte-for-byte equality of the key bytes against the
candidate; propagates the `key_bytes` error. -/
def Comment.hasKey (c : Comment) (key : List Nat) : Except VorbisError Bool :=
  (c.keyBytes).map (fun key0 => key0 == key)

/-- The byte test used by `Comment::key`: `b < 0x20 || b > 0x7D || b == 0x3D`. -/
def badKeyByte (b : Nat) : Bool :=
  decide (b < 0x20) || decide (0x7D < b) || b == 0x3D

/-- Embeds `Comment::key`: key bytes must all pass the printable-ASCII test, then
`String::from_utf8(...).unwrap()` is applied.  The outer `Option` models the
potential `unwrap` panic (`none`); the inner `Except` is the returned
`Result`. -/
def Comment.key (c : Comment) : Option (Except VorbisError (List Nat)) :=
  match c.keyBytes with
  | .error e => some (.error e)
  | .ok key0 =>
    if key0.any badKeyByte then some (.error .CommentFormat)
    else
      match stringFromUtf8 key0 with
      | .ok s => some (.ok s)
      | .error _ => none

/-- Embeds `Comment::value`: UTF-8-decode the value bytes; a decoding failure is
wrapped as `CommentCharacter` (via `From<FromUtf8Error>`). -/
def Comment.value (c : Comment) : Except VorbisError (List Nat) :=
  match c.valueBytes with
  | .error e => .error e
  | .ok value0 =>
    match stringFromUtf8 value0 with
    | .ok s => .ok s
    | .error err => .error (.CommentCharacter err)

/-! ### Error-code translation (`check_errors`) -/

/-- Engine result codes, values from `vorbis_sys`. -/
def OV_HOLE : Int := -3
def OV_EREAD : Int := -128
def OV_EFAULT : Int := -129
def OV_EINVAL : Int := -131
def OV_ENOTVORBIS : Int := -132
def OV_EBADHEADER : Int := -133
def OV_EVERSION : Int := -134

/-- Result of `check_errors`: an `Ok`, an `Err` value, or one of the three
aborting arms of the `match` (the `unimplemented!()` arm for `OV_EREAD`, the
`panic!` arm for `OV_EFAULT`, and the catch-all `panic!` arm). -/
inductive CheckResult where
  | ok
  | fail (e : VorbisError)
  | unimplementedAbort
  | internalFaultAbort
  | unknownCodeAbort (code : Int)
deriving DecidableEq, Repr

/-- Whether a `CheckResult` aborts the process (any of the panicking arms). -/
def CheckResult.aborts : CheckResult → Bool
  | .unimplementedAbort => true
  | .internalFaultAbort => true
  | .unknownCodeAbort _ => true
  | _ => false

/-- Embeds `check_errors` from `src/lib.rs`. -/
def checkErrors (code : Int) : CheckResult :=
  if code = 0 then .ok
  else if code = OV_ENOTVORBIS then .fail .NotVorbis
  else if code = OV_EVERSION then .fail .VersionMismatch
  else if code = OV_EBADHEADER then .fail .BadHeader
  else if code = OV_EINVAL then .fail .InitialFileHeadersCorrupt
  else if code = OV_HOLE then .fail .Hole
  else if code = OV_EREAD then .unimplementedAbort
  else if code = OV_EFAULT then .internalFaultAbort
  else .unknownCodeAbort code

/-! ### `Decoder::new` error path -/

/-- Outcome of `Decoder::new`.  The constructor boxes the `DecoderData`
(with `read_error: None`), registers the callbacks and runs
`check_errors(ov_open_callbacks(..))`; the pending-read-error slot is never
consulted by `new` itself.  `openCode` is the engine's return code from
`ov_open_callbacks`; `slotAfterOpen` is whatever the read callback left in
the `read_error` slot while the engine parsed the headers. -/
inductive NewResult where
  | ok (pendingReadError : Option IOErr)
  | fail (e : VorbisError)
  | aborted
deriving DecidableEq, Repr

/-- The error handling of `Decoder::new`: `try!(check_errors(openCode))`,
then `Ok(Decoder { data })` with the slot as the callback left it. -/
def decoderNew (openCode : Int) (slotAfterOpen : Option IOErr) : NewResult :=
  match checkErrors openCode with
  | .ok => .ok slotAfterOpen
  | .fail e => .fail e
  | _ => .aborted

/-- Whether a `NewResult` is an `Err(VorbisError::ReadError(_))`. -/
def NewResult.isReadErrorResult : NewResult → Bool
  | .fail (.ReadError _) => true
  | _ => false

/-! ### The read callback (`read_func`) -/

/-- One observable outcome of the caller-supplied stream's `read`. -/
inductive ReadOutcome where
  | ok (n : Nat)
  | interrupted
  | fail (e : IOErr)
deriving DecidableEq, Repr

/-- Embeds `read_func`: the retry loop over a trace of stream-read outcomes: skips
`Interrupted` results, returns the byte count on success, and on any other
failure stores the error in the `read_error` slot and reports `0` to the
engine.  Returns `(reported count, new slot)`; `none` if the trace ends
before a non-interrupt outcome (the loop would still be running). -/
def readFunc (slot : Option IOErr) : List ReadOutcome → Option (Nat × Option IOErr)
  | [] => none
  | .ok n :: _ => some (n, slot)
  | .interrupted :: rest => readFunc slot rest
  | .fail e :: _ => some (0, some e)

/-! ### `time_tell` -/

/-- Embeds `Decoder::time_tell`: wraps the engine's `ov_time_tell` return value in
`Ok` unconditionally.  The engine's reported value (an `f64` in the source)
is opaque to the wrapper, which does nothing with it but wrap it; it is
modelled as an `Int`-valued token. -/
def timeTell (engineValue : Int) : Except VorbisError Int :=
  .ok engineValue

/-! ### Packet production (`next_packet`) -/

/-- The `vorbis_info` record returned by `ov_info` for the active logical
bitstream (C fields are signed integers). -/
structure VorbisInfo where
  channels : Int
  rate : Int
  bitrate_upper : Int
  bitrate_nominal : Int
  bitrate_lower : Int
  bitrate_window : Int
deriving DecidableEq, Repr

/-- The `Packet` struct: sample data (`Vec<i16>`), `channels: u16`,
and five `u64` fields. -/
structure Packet where
  data : List Int
  channels : Nat
  rate : Nat
  bitrate_upper : Nat
  bitrate_nominal : Nat
  bitrate_lower : Nat
  bitrate_window : Nat
deriving DecidableEq, Repr

/-- The `Packet` construction of `next_packet`: Rust `as` casts from the
signed C fields, i.e. reduction modulo `2^16` (`as u16`) and `2^64`
(`as u64`). -/
def mkPacket (data : List Int) (infos : VorbisInfo) : Packet :=
  { data := data
  , channels := (infos.channels % (2 ^ 16 : Int)).toNat
  , rate := (infos.rate % (2 ^ 64 : Int)).toNat
  , bitrate_upper := (infos.bitrate_upper % (2 ^ 64 : Int)).toNat
  , bitrate_nominal := (infos.bitrate_nominal % (2 ^ 64 : Int)).toNat
  , bitrate_lower := (infos.bitrate_lower % (2 ^ 64 : Int)).toNat
  , bitrate_window := (infos.bitrate_window % (2 ^ 64 : Int)).toNat }

/-- Decidable equality for `Except` results (needed to evaluate concrete
instances). -/
instance {ε α : Type} [DecidableEq ε] [DecidableEq α] :
    DecidableEq (Except ε α) := fun x y =>
  match x, y with
  | .ok a, .ok b =>
    if h : a = b then .isTrue (by rw [h])
    else .isFalse (fun hh => h (Except.ok.inj hh))
  | .ok _, .error _ => .isFalse (fun hh => Except.noConfusion hh)
  | .error _, .ok _ => .isFalse (fun hh => Except.noConfusion hh)
  | .error a, .error b =>
    if h : a = b then .isTrue (by rw [h])
    else .isFalse (fun hh => h (Except.error.inj hh))

/-- One step of packet iteration: either the iterator yields an item
(`Some(Result<Packet, VorbisError>)`), terminates cleanly (`None`), or the
call aborts in one of the panicking arms. -/
inductive PacketStep where
  | terminate
  | item (r : Except VorbisError Packet)
  | aborted
deriving DecidableEq, Repr

/-- Embeds `Decoder::next_packet`.  `ret` is `ov_read`'s return value; `buffer` is
the 2048-slot `i16` buffer after the engine call (the engine fills it in
place); `slot` is the `read_error` slot as the read callback left it;
`infos` is what `ov_info` reports for the just-updated active logical
bitstream.  Returns the step together with the new slot contents
(`Option::take` clears the slot in the zero branch; the other branches do
not touch it). -/
def nextPacket (ret : Int) (buffer : List Int) (slot : Option IOErr)
    (infos : VorbisInfo) : PacketStep × Option IOErr :=
  if ret = 0 then
    match slot with
    | some err => (.item (.error (.ReadError err)), none)
    | none => (.terminate, none)
  else if ret < 0 then
    match checkErrors ret with
    | .fail e => (.item (.error e), slot)
    | _ => (.aborted, slot)
  else
    (.item (.ok (mkPacket (buffer.take (ret.toNat / 2)) infos)), slot)

/-! ### `get_comment` -/

/-- Embeds `Decoder::get_comment` over the decoder's comment list (the engine-held
byte strings, in storage order, as `comments()` iterates them): for each
comment (constructed as in `comment_at`), `try!(has_key)`, and for matches
`try!(value())` is pushed. -/
def getComment (comments : List (List Nat)) (key : List Nat) :
    Except VorbisError (List (List Nat)) :=
  match comments with
  | [] => .ok []
  | c :: rest =>
    match (mkComment c).hasKey key with
    | .error e => .error e
    | .ok true =>
      match (mkComment c).value with
      | .error e => .error e
      | .ok v => (getComment rest key).map (fun vs => v :: vs)
    | .ok false => getComment rest key

/-! ### Spec-side descriptions (used to state claims about `get_comment`
and the comment views; written from the specification's words) -/

/-- Split a raw comment at its first `=`: `none` when there is no
separator, otherwise the key portion and the value portion. -/
def sepSplit (c : List Nat) : Option (List Nat × List Nat) :=
  match c.findIdx? (fun b => b == 61) with
  | none => none
  | some p => some (c.take p, c.drop (p + 1))

/-- The key portion of a raw comment (empty when there is no separator). -/
def keyPortion (c : List Nat) : List Nat :=
  match sepSplit c with
  | some (k, _) => k
  | none => []

/-- The value portion of a raw comment (empty when there is no separator). -/
def valuePortion (c : List Nat) : List Nat :=
  match sepSplit c with
  | some (_, v) => v
  | none => []

/-- Spec: a comment matches a key when it has a separator and its key
portion equals the key byte-for-byte. -/
def commentMatches (key c : List Nat) : Bool :=
  match sepSplit c with
  | some (k, _) => k == key
  | none => false

/-- A comment on which `get_comment key` fails: no separator, or a matching
key with a value that is not valid UTF-8. -/
def commentBad (key c : List Nat) : Bool :=
  match sepSplit c with
  | none => true
  | some (k, v) => k == key && !(validUtf8 v)

/-- The error `get_comment` reports for a failing comment. -/
def commentBadError (c : List Nat) : VorbisError :=
  match sepSplit c with
  | none => .CommentFormat
  | some (_, v) => .CommentCharacter v

/-- Spec: the key-validity rule — every key byte in `[0x20, 0x7D]` and not
`0x3D`. -/
def goodKeyByte (b : Nat) : Bool :=
  decide (0x20 ≤ b) && decide (b ≤ 0x7D) && !(b == 0x3D)

/-! ## Helper lemmas -/

/-- An all-ASCII byte sequence is valid UTF-8. -/
theorem validUtf8_of_ascii (l : List Nat) (h : ∀ b ∈ l, b ≤ 0x7F) :
    validUtf8 l = true := by
  induction l with
  | nil => rfl
  | cons b rest ih =>
    have hb : b ≤ 0x7F := h b (by simp)
    unfold validUtf8 at ih ⊢
    rw [utf8Run, if_pos hb]
    exact ih (fun x hx => h x (by simp [hx]))

/-- A comment without a `=` byte gets `sep_pos = none`. -/
theorem mkComment_sep_pos_none (bs : List Nat) (h : ∀ b ∈ bs, b ≠ 61) :
    (mkComment bs).sep_pos = none := by
  unfold mkComment
  simp only [List.findIdx?_eq_none_iff]
  intro b hb
  simp [h b hb]

/-- The first `=` of `k ++ 61 :: v` is at index `k.length` when `k` is
`=`-free. -/
theorem findIdx?_sep (k v : List Nat) (hk : ∀ b ∈ k, (b == 61) = false) :
    (k ++ 61 :: v).findIdx? (fun b => b == 61) = some k.length := by
  rw [List.findIdx?_append, List.findIdx?_eq_none_iff.mpr hk]
  simp [List.findIdx?_cons]

/-- Helper predicate: `check_errors` never produces `Err(ReadError(_))`: helper predicate. -/
def CheckResult.isReadErrorFail : CheckResult → Bool
  | .fail (.ReadError _) => true
  | _ => false

/-- No arm of `check_errors` returns a `ReadError`. -/
theorem checkErrors_no_readError (code : Int) :
    (checkErrors code).isReadErrorFail = false := by
  unfold checkErrors
  repeat' split
  all_goals rfl

/-- The byte test of `Comment::key` is the negation of the spec's key
validity rule. -/
theorem badKeyByte_eq_not_good (b : Nat) : badKeyByte b = !goodKeyByte b := by
  rw [Bool.eq_iff_iff]
  simp [badKeyByte, goodKeyByte]

/-- Having a bad key byte is the negation of all key bytes being good. -/
theorem any_bad_eq_not_all_good (l : List Nat) :
    l.any badKeyByte = !l.all goodKeyByte := by
  induction l with
  | nil => rfl
  | cons b rest ih =>
    simp [List.any_cons, List.all_cons, ih, badKeyByte_eq_not_good,
      Bool.not_and]

/-- A good key byte is ASCII. -/
theorem goodKeyByte_ascii (b : Nat) (h : goodKeyByte b = true) : b ≤ 0x7F := by
  simp [goodKeyByte] at h
  omega

/-! ## Claims -/

/-- C1 (code bug): `Comment::bytes()` is claimed to always succeed and
return a copy of the raw bytes; but `clone_from_slice` on the length-0
vector built by `Vec::with_capacity` panics whenever the comment is
nonempty.  At the concrete comment `b"A=b"` the call panics (`none`). -/
theorem C1_comment_bytes_panics :
    Comment.bytesCopy (mkComment [65, 61, 98]) = none := by decide

/-- C2 (code bug): `Decoder::new` is claimed to return
`Err(VorbisError::ReadError(_))` when the stream's read fails during header
parsing.  A failing read does store its error in the slot and report 0 to
the engine (first conjunct), but no execution of `Decoder::new` can produce
a `ReadError` (its only error source is `check_errors`, which has no
`ReadError` arm), and on the engine's read-failure code `OV_EREAD` it
aborts in the `unimplemented!()` arm instead. -/
theorem C2_new_never_read_error (code : Int) (slot : Option IOErr) :
    (∀ e tr, readFunc slot (ReadOutcome.fail e :: tr) = some (0, some e))
      ∧ (decoderNew code slot).isReadErrorResult = false
      ∧ decoderNew OV_EREAD slot = NewResult.aborted := by
  refine ⟨fun e tr => rfl, ?_, rfl⟩
  have h := checkErrors_no_readError code
  unfold decoderNew
  cases hc : checkErrors code with
  | ok => rfl
  | fail e =>
    rw [hc] at h
    cases e <;> simp_all [CheckResult.isReadErrorFail,
      NewResult.isReadErrorResult]
  | unimplementedAbort => rfl
  | internalFaultAbort => rfl
  | unknownCodeAbort c => rfl

/-- C3 counterexample: when the engine's time-tell entry point reports the
error code `OV_EINVAL` (as its returned value), `time_tell` still returns
success (`Ok`) and never a taxonomy error — refuting the claim that a
reported error is forwarded as an error value. -/
theorem C3_time_tell_counterexample :
    timeTell OV_EINVAL = Except.ok OV_EINVAL := rfl

/-- C3 (amended): `time_tell` unconditionally wraps whatever value the
engine's time-tell entry point reports in `Ok`; it never returns an error
value. -/
theorem C3_time_tell_always_ok (engineValue : Int) :
    timeTell engineValue = Except.ok engineValue := rfl

/-- C4: one `next_packet` call — engine result `0` with a pending I/O error
takes (clears) the slot and yields exactly one read-error item; `0` with an
empty slot terminates the sequence with no item; a positive `n` truncates
the sample buffer to `n / 2` slots and yields a successful `Packet` stamped
with channel count, sample rate and the four bitrate fields of the active
sub-stream's info. -/
theorem C4_next_packet (ret : Int) (buffer : List Int) (e : IOErr)
    (slot : Option IOErr) (infos : VorbisInfo) :
    (nextPacket 0 buffer (some e) infos
        = (PacketStep.item (Except.error (VorbisError.ReadError e)), none))
    ∧ (nextPacket 0 buffer none infos = (PacketStep.terminate, none))
    ∧ (0 < ret →
        nextPacket ret buffer slot infos
          = (PacketStep.item (Except.ok
              (mkPacket (buffer.take (ret.toNat / 2)) infos)), slot)) := by
  refine ⟨rfl, rfl, fun h => ?_⟩
  unfold nextPacket
  rw [if_neg (by omega), if_neg (by omega)]

/-- Witness for C4 at concrete inputs: `ov_read` returning 4 bytes over a
buffer `[5, 6, 7]` yields the packet with the first 2 samples, and a zero
return with a pending error yields the read-error item. -/
theorem C4_next_packet_witness :
    (nextPacket 4 [5, 6, 7] none
        { channels := 2, rate := 44100, bitrate_upper := 0,
          bitrate_nominal := 128000, bitrate_lower := 0, bitrate_window := 0 }
      = (PacketStep.item (Except.ok
          { data := [5, 6], channels := 2, rate := 44100, bitrate_upper := 0,
            bitrate_nominal := 128000, bitrate_lower := 0,
            bitrate_window := 0 }), none))
    ∧ (nextPacket 0 [] (some ⟨7⟩)
        { channels := 2, rate := 44100, bitrate_upper := 0,
          bitrate_nominal := 128000, bitrate_lower := 0, bitrate_window := 0 }
      = (PacketStep.item (Except.error (VorbisError.ReadError ⟨7⟩)), none)) := by
  have h := C4_next_packet 4 [5, 6, 7] ⟨7⟩ none
    { channels := 2, rate := 44100, bitrate_upper := 0,
      bitrate_nominal := 128000, bitrate_lower := 0, bitrate_window := 0 }
  constructor
  · rw [h.2.2 (by decide)]
    decide
  · exact h.1

/-- C9: `check_errors` maps `0` to success, `OV_ENOTVORBIS` to `NotVorbis`,
`OV_EVERSION` to `VersionMismatch`, `OV_EBADHEADER` to `BadHeader`,
`OV_EINVAL` to `InitialFileHeadersCorrupt`, `OV_HOLE` to `Hole`; the
internal-fault code `OV_EFAULT` aborts the process, and so does every code
outside the six mapped ones. -/
theorem C9_check_errors_mapping (code : Int)
    (h : (code == 0 || code == OV_ENOTVORBIS || code == OV_EVERSION ||
          code == OV_EBADHEADER || code == OV_EINVAL || code == OV_HOLE)
        = false) :
    checkErrors 0 = CheckResult.ok
      ∧ checkErrors OV_ENOTVORBIS = CheckResult.fail VorbisError.NotVorbis
      ∧ checkErrors OV_EVERSION = CheckResult.fail VorbisError.VersionMismatch
      ∧ checkErrors OV_EBADHEADER = CheckResult.fail VorbisError.BadHeader
      ∧ checkErrors OV_EINVAL
          = CheckResult.fail VorbisError.InitialFileHeadersCorrupt
      ∧ checkErrors OV_HOLE = CheckResult.fail VorbisError.Hole
      ∧ checkErrors OV_EFAULT = CheckResult.internalFaultAbort
      ∧ (checkErrors code).aborts = true := by
  refine ⟨by decide, by decide, by decide, by decide, by decide, by decide,
    by decide, ?_⟩
  simp only [Bool.or_eq_false_iff, beq_eq_false_iff_ne] at h
  obtain ⟨⟨⟨⟨⟨h0, h1⟩, h2⟩, h3⟩, h4⟩, h5⟩ := h
  unfold checkErrors
  rw [if_neg h0, if_neg h1, if_neg h2, if_neg h3, if_neg h4, if_neg h5]
  repeat' split
  all_goals rfl

/-- Witness for C9 at the concrete unrecognized code `-77`. -/
theorem C9_check_errors_witness :
    (checkErrors (-77)).aborts = true :=
  (C9_check_errors_mapping (-77) (by decide)).2.2.2.2.2.2.2

/-- With a separator at `p`, the key portion is the first `p` bytes. -/
theorem keyPortion_of_sep (bs : List Nat) (p : Nat)
    (hp : bs.findIdx? (fun b => b == 61) = some p) :
    keyPortion bs = bs.take p := by
  simp [keyPortion, sepSplit, hp]

/-- Key access succeeds when the separator exists and all key bytes pass
the validity rule. -/
theorem key_of_sep_good (bs : List Nat) (p : Nat)
    (hp : bs.findIdx? (fun b => b == 61) = some p)
    (hgood : (bs.take p).all goodKeyByte = true) :
    (mkComment bs).key = some (Except.ok (bs.take p)) := by
  have hany : (bs.take p).any badKeyByte = false := by
    rw [any_bad_eq_not_all_good, hgood]
    rfl
  have hvalid : validUtf8 (bs.take p) = true :=
    validUtf8_of_ascii _ (fun b hb =>
      goodKeyByte_ascii b (List.all_eq_true.mp hgood b hb))
  simp [Comment.key, Comment.keyBytes, mkComment, hp, hany, stringFromUtf8,
    hvalid]

/-- Key access reports `CommentFormat` when some key byte violates the
validity rule. -/
theorem key_of_sep_bad (bs : List Nat) (p : Nat)
    (hp : bs.findIdx? (fun b => b == 61) = some p)
    (hbad : (bs.take p).all goodKeyByte = false) :
    (mkComment bs).key = some (Except.error VorbisError.CommentFormat) := by
  have hany : (bs.take p).any badKeyByte = true := by
    rw [any_bad_eq_not_all_good, hbad]
    rfl
  simp [Comment.key, Comment.keyBytes, mkComment, hp, hany]

/-- C5: a comment with raw bytes `b"KEY=value"` yields `key() == "KEY"` and
`value() == "value"`; every comment without a `=` byte yields
`CommentFormat` from both `key()` and `value()`. -/
theorem C5_round_trip (bs : List Nat) (h : ∀ b ∈ bs, b ≠ 61) :
    ((mkComment [75, 69, 89, 61, 118, 97, 108, 117, 101]).key
        = some (Except.ok [75, 69, 89]))
    ∧ ((mkComment [75, 69, 89, 61, 118, 97, 108, 117, 101]).value
        = Except.ok [118, 97, 108, 117, 101])
    ∧ (mkComment bs).key = some (Except.error VorbisError.CommentFormat)
    ∧ (mkComment bs).value = Except.error VorbisError.CommentFormat := by
  have hsep : (mkComment bs).sep_pos = none := mkComment_sep_pos_none bs h
  refine ⟨by decide, by decide, ?_, ?_⟩
  · simp [Comment.key, Comment.keyBytes, hsep]
  · simp [Comment.value, Comment.valueBytes, hsep]

/-- Witness for C5 at the concrete separator-free comment `b"XY"`. -/
theorem C5_round_trip_witness :
    (mkComment [88, 89]).key = some (Except.error VorbisError.CommentFormat)
    ∧ (mkComment [88, 89]).value = Except.error VorbisError.CommentFormat := by
  have h := C5_round_trip [88, 89] (by decide)
  exact ⟨h.2.2.1, h.2.2.2⟩

/-- C6: for a comment with a separator, `key()` succeeds exactly when every
key byte is in `[0x20, 0x7D]` and is not `0x3D`; any violating byte makes
`key()` return `CommentFormat`. -/
theorem C6_key_validity (bs : List Nat)
    (h : (mkComment bs).sep_pos.isSome = true) :
    ((∃ s, (mkComment bs).key = some (Except.ok s))
        ↔ (keyPortion bs).all goodKeyByte = true)
    ∧ ((keyPortion bs).all goodKeyByte = false →
        (mkComment bs).key = some (Except.error VorbisError.CommentFormat)) := by
  obtain ⟨p, hp⟩ := Option.isSome_iff_exists.mp h
  have hp' : bs.findIdx? (fun b => b == 61) = some p := hp
  rw [keyPortion_of_sep bs p hp']
  refine ⟨⟨?_, ?_⟩, ?_⟩
  · rintro ⟨s, hs⟩
    cases hh : (bs.take p).all goodKeyByte with
    | true => rfl
    | false =>
      rw [key_of_sep_bad bs p hp' hh] at hs
      simp at hs
  · intro hgood
    exact ⟨bs.take p, key_of_sep_good bs p hp' hgood⟩
  · intro hbad
    exact key_of_sep_bad bs p hp' hbad

/-- Witness for C6: `b"K=v"` has a valid key; `b"K\x01Y=v"` yields
`CommentFormat`. -/
theorem C6_key_validity_witness :
    (∃ s, (mkComment [75, 61, 118]).key = some (Except.ok s))
    ∧ (mkComment [75, 1, 89, 61, 118]).key
        = some (Except.error VorbisError.CommentFormat) := by
  constructor
  · exact ((C6_key_validity [75, 61, 118] (by decide)).1).mpr (by decide)
  · exact (C6_key_validity [75, 1, 89, 61, 118] (by decide)).2 (by decide)

/-- C7: a comment `key ++ "=" ++ value` whose value is not well-formed
UTF-8 yields `CommentCharacter` (carrying the undecodable bytes) from
`value()`, while `key()` still succeeds when the key bytes are valid. -/
theorem C7_value_encoding (k v : List Nat) (hk : k.all goodKeyByte = true)
    (hv : validUtf8 v = false) :
    (mkComment (k ++ 61 :: v)).value
        = Except.error (VorbisError.CommentCharacter v)
    ∧ (mkComment (k ++ 61 :: v)).key = some (Except.ok k) := by
  have hk61 : ∀ b ∈ k, (b == 61) = false := by
    intro b hb
    have hg := List.all_eq_true.mp hk b hb
    unfold goodKeyByte at hg
    rw [Bool.and_eq_true] at hg
    simpa using hg.2
  have hp : (k ++ 61 :: v).findIdx? (fun b => b == 61) = some k.length :=
    findIdx?_sep k v hk61
  have htake : (k ++ 61 :: v).take k.length = k := List.take_left k (61 :: v)
  have hdrop : (k ++ 61 :: v).drop (k.length + 1) = v :=
    @List.drop_append Nat k (61 :: v) 1
  constructor
  · simp [Comment.value, Comment.valueBytes, mkComment, hp, hdrop,
      stringFromUtf8, hv]
  · have hg := key_of_sep_good (k ++ 61 :: v) k.length hp
      (by rw [htake]; exact hk)
    rw [htake] at hg
    exact hg

/-- Witness for C7 at the concrete comment `b"K=\xFF"`. -/
theorem C7_value_encoding_witness :
    (mkComment [75, 61, 255]).value
        = Except.error (VorbisError.CommentCharacter [255])
    ∧ (mkComment [75, 61, 255]).key = some (Except.ok [75]) :=
  C7_value_encoding [75] [255] (by decide) (by decide)

/-- C10: `has_key` compares bytes only and skips the printable-ASCII
validity check: a comment with a separator but an out-of-range key byte
still gets `Ok(_)` from `has_key` (the plain byte-equality answer) while
`key()` reports `CommentFormat`. -/
theorem C10_has_key_skips_validation (bs key : List Nat)
    (h : (mkComment bs).sep_pos.isSome = true)
    (hbad : (keyPortion bs).any
        (fun b => decide (b < 0x20) || decide (0x7D < b)) = true) :
    (mkComment bs).hasKey key = Except.ok (keyPortion bs == key)
    ∧ (mkComment bs).key = some (Except.error VorbisError.CommentFormat) := by
  obtain ⟨p, hp⟩ := Option.isSome_iff_exists.mp h
  have hp' : bs.findIdx? (fun b => b == 61) = some p := hp
  rw [keyPortion_of_sep bs p hp'] at hbad ⊢
  constructor
  · simp [Comment.hasKey, Comment.keyBytes, mkComment, hp', Except.map]
  · have hanybad : (bs.take p).any badKeyByte = true := by
      obtain ⟨b, hb, hbb⟩ := List.any_eq_true.mp hbad
      refine List.any_eq_true.mpr ⟨b, hb, ?_⟩
      unfold badKeyByte
      rcases (Bool.or_eq_true _ _).mp hbb with h1 | h2
      · simp [h1]
      · simp [h2]
    have hallbad : (bs.take p).all goodKeyByte = false := by
      have heq := any_bad_eq_not_all_good (bs.take p)
      rw [hanybad] at heq
      simpa using heq.symm
    exact key_of_sep_bad bs p hp' hallbad

/-- Witness for C10 at the concrete comment `b"K\x01Y=v"` queried with its
own raw key bytes. -/
theorem C10_has_key_skips_validation_witness :
    (mkComment [75, 1, 89, 61, 118]).hasKey [75, 1, 89] = Except.ok true
    ∧ (mkComment [75, 1, 89, 61, 118]).key
        = some (Except.error VorbisError.CommentFormat) := by
  have h := C10_has_key_skips_validation [75, 1, 89, 61, 118] [75, 1, 89]
    (by decide) (by decide)
  refine ⟨?_, h.2⟩
  rw [h.1]
  decide

/-- Evaluation: `has_key` on a separator-free comment propagates `CommentFormat`. -/
theorem hasKey_of_nosep (c key : List Nat)
    (hf : c.findIdx? (fun b => b == 61) = none) :
    (mkComment c).hasKey key = Except.error VorbisError.CommentFormat := by
  simp [Comment.hasKey, Comment.keyBytes, mkComment, hf, Except.map]

/-- Evaluation: `has_key` on a comment with separator at `p` answers byte equality of
the key portion. -/
theorem hasKey_of_sep (c key : List Nat) (p : Nat)
    (hf : c.findIdx? (fun b => b == 61) = some p) :
    (mkComment c).hasKey key = Except.ok (c.take p == key) := by
  simp [Comment.hasKey, Comment.keyBytes, mkComment, hf, Except.map]

/-- Evaluation of `value()` on a comment with separator at `p`. -/
theorem value_of_sep (c : List Nat) (p : Nat)
    (hf : c.findIdx? (fun b => b == 61) = some p) :
    (mkComment c).value =
      (if validUtf8 (c.drop (p + 1)) then Except.ok (c.drop (p + 1))
       else Except.error (VorbisError.CommentCharacter (c.drop (p + 1)))) := by
  cases hv : validUtf8 (c.drop (p + 1)) <;>
    simp [Comment.value, Comment.valueBytes, mkComment, hf, stringFromUtf8, hv]

/-- Evaluation: `get_comment` fails at a leading separator-free comment. -/
theorem getComment_cons_nosep (c : List Nat) (cs : List (List Nat))
    (key : List Nat) (hf : c.findIdx? (fun b => b == 61) = none) :
    getComment (c :: cs) key = Except.error VorbisError.CommentFormat := by
  rw [getComment, hasKey_of_nosep c key hf]

/-- Evaluation: `get_comment` skips a leading non-matching comment. -/
theorem getComment_cons_nomatch (c : List Nat) (cs : List (List Nat))
    (key : List Nat) (p : Nat)
    (hf : c.findIdx? (fun b => b == 61) = some p)
    (hm : (c.take p == key) = false) :
    getComment (c :: cs) key = getComment cs key := by
  rw [getComment, hasKey_of_sep c key p hf, hm]

/-- Evaluation: `get_comment` fails at a leading matching comment with an undecodable
value. -/
theorem getComment_cons_match_bad (c : List Nat) (cs : List (List Nat))
    (key : List Nat) (p : Nat)
    (hf : c.findIdx? (fun b => b == 61) = some p)
    (hm : (c.take p == key) = true)
    (hv : validUtf8 (c.drop (p + 1)) = false) :
    getComment (c :: cs) key
      = Except.error (VorbisError.CommentCharacter (c.drop (p + 1))) := by
  rw [getComment, hasKey_of_sep c key p hf, hm, value_of_sep c p hf,
    if_neg (by simp [hv])]

/-- Evaluation: `get_comment` collects a leading matching comment with a decodable
value. -/
theorem getComment_cons_match_good (c : List Nat) (cs : List (List Nat))
    (key : List Nat) (p : Nat)
    (hf : c.findIdx? (fun b => b == 61) = some p)
    (hm : (c.take p == key) = true)
    (hv : validUtf8 (c.drop (p + 1)) = true) :
    getComment (c :: cs) key
      = (getComment cs key).map (fun vs => c.drop (p + 1) :: vs) := by
  rw [getComment, hasKey_of_sep c key p hf, hm, value_of_sep c p hf, if_pos hv]

/-- Spec-side rewrites for a comment without separator. -/
theorem commentBad_of_nosep (key c : List Nat)
    (hf : c.findIdx? (fun b => b == 61) = none) :
    commentBad key c = true := by
  simp [commentBad, sepSplit, hf]

/-- Spec-side rewrites for a comment with separator at `p`. -/
theorem commentBad_of_sep (key c : List Nat) (p : Nat)
    (hf : c.findIdx? (fun b => b == 61) = some p) :
    commentBad key c = ((c.take p == key) && !(validUtf8 (c.drop (p + 1)))) := by
  simp [commentBad, sepSplit, hf]

/-- A separator-free comment matches no key. -/
theorem commentMatches_of_nosep (key c : List Nat)
    (hf : c.findIdx? (fun b => b == 61) = none) :
    commentMatches key c = false := by
  simp [commentMatches, sepSplit, hf]

/-- Matching is byte equality of the key portion. -/
theorem commentMatches_of_sep (key c : List Nat) (p : Nat)
    (hf : c.findIdx? (fun b => b == 61) = some p) :
    commentMatches key c = (c.take p == key) := by
  simp [commentMatches, sepSplit, hf]

/-- The failure error of a separator-free comment. -/
theorem commentBadError_of_nosep (c : List Nat)
    (hf : c.findIdx? (fun b => b == 61) = none) :
    commentBadError c = VorbisError.CommentFormat := by
  simp [commentBadError, sepSplit, hf]

/-- The failure error of a comment with separator at `p`. -/
theorem commentBadError_of_sep (c : List Nat) (p : Nat)
    (hf : c.findIdx? (fun b => b == 61) = some p) :
    commentBadError c = VorbisError.CommentCharacter (c.drop (p + 1)) := by
  simp [commentBadError, sepSplit, hf]

/-- The value portion of a comment with separator at `p`. -/
theorem valuePortion_of_sep (c : List Nat) (p : Nat)
    (hf : c.findIdx? (fun b => b == 61) = some p) :
    valuePortion c = c.drop (p + 1) := by
  simp [valuePortion, sepSplit, hf]

/-- C8 counterexample: the comment list `[b"T=\xFF"]` contains a comment
whose value cannot be decoded, yet `get_comment(b"K")` succeeds with `[]`
instead of failing — refuting the claim that the call fails at the first
comment, matching or not, whose key or value cannot be decoded. -/
theorem C8_counterexample :
    getComment [[84, 61, 255]] [75] = Except.ok [] := by decide

/-- C8 (amended): `get_comment(key)` returns the decoded values of exactly
the comments whose key portion equals the key byte-for-byte, in original
storage order with no deduplication, provided every comment has a
separator and every matching comment's value is valid UTF-8; it fails,
returning no partial result, with the error of the first failing comment —
`CommentFormat` at the first comment (matching or not) without a
separator, or `CommentCharacter` at the first matching comment whose value
is not valid UTF-8.  Non-matching comments with undecodable values (and
key-character-rule violations generally) do not cause failure. -/
theorem C8_get_comment (cs : List (List Nat)) (key : List Nat) :
    ((∀ c ∈ cs, commentBad key c = false) →
        getComment cs key
          = Except.ok ((cs.filter (commentMatches key)).map valuePortion))
    ∧ (∀ pre mid post, cs = pre ++ mid :: post →
        (∀ c ∈ pre, commentBad key c = false) →
        commentBad key mid = true →
        getComment cs key = Except.error (commentBadError mid)) := by
  induction cs with
  | nil =>
    refine ⟨fun _ => rfl, ?_⟩
    intro pre mid post hcs _ _
    cases pre <;> simp at hcs
  | cons c rest ih =>
    constructor
    · intro hok
      have hc := hok c (List.mem_cons_self c rest)
      rw [List.filter_cons]
      cases hf : c.findIdx? (fun b => b == 61) with
      | none =>
        rw [commentBad_of_nosep key c hf] at hc
        exact absurd hc (by simp)
      | some p =>
        rw [commentBad_of_sep key c p hf] at hc
        rw [commentMatches_of_sep key c p hf]
        cases hm : (c.take p == key) with
        | false =>
          rw [getComment_cons_nomatch c rest key p hf hm]
          simp only [Bool.false_eq_true, if_false]
          exact ih.1 (fun x hx => hok x (List.mem_cons_of_mem c hx))
        | true =>
          have hv : validUtf8 (c.drop (p + 1)) = true := by
            rw [hm] at hc
            simpa using hc
          rw [getComment_cons_match_good c rest key p hf hm hv,
            ih.1 (fun x hx => hok x (List.mem_cons_of_mem c hx))]
          simp [Except.map, valuePortion_of_sep c p hf]
    · intro pre mid post hcs hpre hbad
      cases pre with
      | nil =>
        simp only [List.nil_append, List.cons.injEq] at hcs
        obtain ⟨hc, hrest⟩ := hcs
        subst hc
        subst hrest
        cases hf : c.findIdx? (fun b => b == 61) with
        | none =>
          rw [getComment_cons_nosep c rest key hf,
            commentBadError_of_nosep c hf]
        | some p =>
          rw [commentBad_of_sep key c p hf] at hbad
          have hm : (c.take p == key) = true := by
            cases hmm : (c.take p == key)
            · rw [hmm] at hbad
              simp at hbad
            · rfl
          have hv : validUtf8 (c.drop (p + 1)) = false := by
            rw [hm] at hbad
            simpa using hbad
          rw [getComment_cons_match_bad c rest key p hf hm hv,
            commentBadError_of_sep c p hf]
      | cons c0 pre2 =>
        simp only [List.cons_append, List.cons.injEq] at hcs
        obtain ⟨hc0, hrest⟩ := hcs
        subst hc0
        have hcgood : commentBad key c = false := hpre c (by simp)
        have htail := ih.2 pre2 mid post hrest
          (fun x hx => hpre x (by simp [hx])) hbad
        cases hf : c.findIdx? (fun b => b == 61) with
        | none =>
          rw [commentBad_of_nosep key c hf] at hcgood
          exact absurd hcgood (by simp)
        | some p =>
          rw [commentBad_of_sep key c p hf] at hcgood
          cases hm : (c.take p == key) with
          | false =>
            rw [getComment_cons_nomatch c rest key p hf hm]
            exact htail
          | true =>
            have hv : validUtf8 (c.drop (p + 1)) = true := by
              rw [hm] at hcgood
              simpa using hcgood
            rw [getComment_cons_match_good c rest key p hf hm hv, htail]
            rfl

/-- Witness for C8 over the shape of the spec's own example: comments
`["SPLICEPOINT=10", "SPLICEPOINT=5", "TITLE=x"]` with key `"SPLICEPOINT"`
yield `["10", "5"]` in order, and a leading separator-free comment fails
with `CommentFormat`. -/
theorem C8_get_comment_witness :
    getComment
        [[83, 80, 76, 73, 67, 69, 80, 79, 73, 78, 84, 61, 49, 48],
         [83, 80, 76, 73, 67, 69, 80, 79, 73, 78, 84, 61, 53],
         [84, 73, 84, 76, 69, 61, 120]]
        [83, 80, 76, 73, 67, 69, 80, 79, 73, 78, 84]
      = Except.ok [[49, 48], [53]]
    ∧ getComment [[84]] [75] = Except.error VorbisError.CommentFormat := by
  constructor
  · rw [(C8_get_comment
      [[83, 80, 76, 73, 67, 69, 80, 79, 73, 78, 84, 61, 49, 48],
       [83, 80, 76, 73, 67, 69, 80, 79, 73, 78, 84, 61, 53],
       [84, 73, 84, 76, 69, 61, 120]]
      [83, 80, 76, 73, 67, 69, 80, 79, 73, 78, 84]).1 (by decide)]
    decide
  · rw [(C8_get_comment [[84]] [75]).2 [] [84] [] rfl (by simp) (by decide)]
    decide
